import Mathlib

/-!
Verification development for the helicopter fuel-injection digital twin backend
(`backend/main.py`).  Python floats are modelled as exact rationals; the
pseudo-random draws of `random.randint` / `random.uniform` / `random.random`
are made explicit as parameters, so every function below is the deterministic
kernel of the corresponding Python function.  `datetime` instants are modelled
as rational numbers of seconds.
-/

/-- Python's `round(x, 2)` modelled on exact rationals: round to the nearest
multiple of 1/100.  (Python rounds ties to even on binary floats; no claim
below depends on the tie-breaking direction.) -/
def round2 (x : ℚ) : ℚ := ((round (100 * x) : ℤ) : ℚ) / 100

/-- The telemetry dict produced by `simulate_fuel_system` and transformed by
`inject_fault`: `timestamp`, `rpm`, `throttle`, `fuel_pressure`, `fuel_temp`,
`flow_rate`, plus the optional `note` key that `inject_fault` adds for unknown
fault types. -/
structure Telemetry where
  timestamp : ℚ
  rpm : ℚ
  throttle : ℚ
  fuel_pressure : ℚ
  fuel_temp : ℚ
  flow_rate : ℚ
  note : Option String := none
deriving DecidableEq, Repr, Inhabited

/-- `simulate_fuel_system` (main.py lines 90-111), with the random draws as
parameters: `rpm0` is `random.randint(1500, 4000)`, `u_pressure` and `u_temp`
the `random.uniform(-0.2, 0.2)` / `random.uniform(-1, 1)` draws,
`anomaly_roll` the `random.random()` draw, `band_low` whether
`random.choice(["low","high"])` picked `"low"`, `u_low`/`u_high` the
`random.uniform(-40, -20)` / `random.uniform(56, 80)` draws, `u_flow` the
`random.uniform(0, 1)` draw, and `now` the `datetime.utcnow()` instant. -/
def simulate_fuel_system (rpm0 : ℤ) (u_pressure u_temp anomaly_roll : ℚ)
    (band_low : Bool) (u_low u_high u_flow : ℚ) (now : ℚ) : Telemetry :=
  let rpm : ℚ := (rpm0 : ℚ)
  let throttle := round2 ((rpm - 1500) / 25)
  let fuel_pressure := round2 (2.5 + rpm / 1000 + u_pressure)
  let fuel_temp0 := round2 (20 + rpm / 200 + u_temp)
  let fuel_temp :=
    if anomaly_roll < 0.1 then
      if band_low then round2 u_low else round2 u_high
    else fuel_temp0
  let flow_rate := round2 (0.1 * throttle + u_flow)
  { timestamp := now, rpm := rpm, throttle := throttle,
    fuel_pressure := fuel_pressure, fuel_temp := fuel_temp,
    flow_rate := flow_rate, note := none }

/-- The pure field transformation of `inject_fault` (main.py lines 134-150):
`u_spike` is the `random.uniform(0, 2)` draw used only by the
`"throttle_spike"` branch. -/
def inject_fault (t : Telemetry) (fault_type : String) (u_spike : ℚ) : Telemetry :=
  if fault_type = "injector_clog" then
    { t with flow_rate := t.flow_rate * 0.3 }
  else if fault_type = "sensor_failure" then
    { t with fuel_temp := 999 }
  else if fault_type = "fuel_leak" then
    { t with fuel_pressure := t.fuel_pressure - 2 }
  else if fault_type = "rpm_surge" then
    let rpm := t.rpm + 2000
    { t with rpm := rpm, throttle := round2 ((rpm - 1500) / 25) }
  else if fault_type = "throttle_spike" then
    { t with throttle := 100, flow_rate := round2 (10 + u_spike) }
  else
    { t with note := some " Unknown fault type  no effect" }

/-- The Python `inject_fault` mutates the dict it is handed and returns that
very object (`telemetry["..."] = ...; return telemetry`).  We model object
identity with a store of telemetry cells and a reference as an index: the
call updates the cell the caller's reference points at with the fault
transformation and hands back the same reference. -/
def inject_fault_call (store : List Telemetry) (r : Nat) (fault_type : String)
    (u_spike : ℚ) : List Telemetry × Nat :=
  (store.set r (inject_fault (store.getD r default) fault_type u_spike), r)

/-- `infer_probable_cause` (main.py lines 152-173).  The source's rule 7 reads
`telemetry.get("throttle", 0)` (the walrus assignment there binds the whole
boolean, so the condition is `throttle > 90 and flow_rate > 8`); the
`throttle` key is always present on samples built by the simulator. -/
def infer_probable_cause (t : Telemetry) : String :=
  if t.flow_rate < 2 ∧ t.fuel_pressure > 4 then
    "Fuel injector clog (low flow rate)"
  else if t.fuel_temp > 56 then
    "Overheating sensor or coolant failure"
  else if t.fuel_temp < -20 then
    " sensor breakdown or coolant failure"
  else if t.fuel_pressure < 2 then
    "Possible fuel leak or pump failure"
  else if t.fuel_pressure > 4 then
    "Possible fuel leak or pump failure"
  else if t.rpm > 5000 then
    "Abnormal RPM surge  throttle malfunction"
  else if t.throttle > 90 ∧ t.flow_rate > 8 then
    "Throttle stuck open  excessive fuel injection"
  else
    "Anomaly detected, cause unknown"

/-- `infer_safety_measures` (main.py lines 175-189): a fixed lookup table with
a default, via `dict.get(cause, default)`. -/
def infer_safety_measures (cause : String) : String :=
  if cause = "Fuel pressure abnormal likely injector clog" then
    "⚠️ Reduce throttle immediately. Prepare for possible engine power loss. Return to base if feasible."
  else if cause = "Fuel temperature high possible overheating" then
    "🔥 Monitor engine temperature. Avoid sudden throttle increases. Prepare for emergency landing if required."
  else if cause = "Fuel flow rate inconsistent potential leak or blockage" then
    "🚨 Monitor fuel usage carefully. Avoid aggressive maneuvers. Notify control and prepare for early landing."
  else if cause = "Normal operation" then
    "✅ No safety action required. System operating within safe parameters."
  else
    "⚠️ Follow standard emergency procedures. Refer to flight manual."

/-- The §4.4 cascade written the spec's way: an explicit ordered list of
(predicate, cause) pairs, rules 1-7 in order. -/
def causeRules : List ((Telemetry → Bool) × String) :=
  [ (fun t => decide (t.flow_rate < 2 ∧ t.fuel_pressure > 4),
      "Fuel injector clog (low flow rate)"),
    (fun t => decide (t.fuel_temp > 56),
      "Overheating sensor or coolant failure"),
    (fun t => decide (t.fuel_temp < -20),
      " sensor breakdown or coolant failure"),
    (fun t => decide (t.fuel_pressure < 2),
      "Possible fuel leak or pump failure"),
    (fun t => decide (t.fuel_pressure > 4),
      "Possible fuel leak or pump failure"),
    (fun t => decide (t.rpm > 5000),
      "Abnormal RPM surge  throttle malfunction"),
    (fun t => decide (t.throttle > 90 ∧ t.flow_rate > 8),
      "Throttle stuck open  excessive fuel injection") ]

/-- First-match evaluation of an ordered rule list, with a default when no
rule fires. -/
def firstMatch (rules : List ((Telemetry → Bool) × String)) (dflt : String)
    (t : Telemetry) : String :=
  match rules with
  | [] => dflt
  | (p, c) :: rest => if p t then c else firstMatch rest dflt t

/-- The spec-side cascade: first matching rule of §4.4, rule 8 the default. -/
def firstMatchCause (t : Telemetry) : String :=
  firstMatch causeRules "Anomaly detected, cause unknown" t

/-- Python's `int()` applied to a nonnegative-or-negative rational: truncation
toward zero. -/
def python_int (x : ℚ) : ℤ := if 0 ≤ x then ⌊x⌋ else ⌈x⌉

/-- Python `(a - b).days` on datetimes `a`, `b` modelled as seconds:
`timedelta.days` floors toward minus infinity. -/
def timedelta_days (a b : ℚ) : ℤ := ⌊(a - b) / 86400⌋

/-- `estimate_rul` (main.py lines 192-210).  Returns either the sentinel
string (empty history) or an integer day count; `observation_window_days`
is accepted and unused, exactly as in the source. -/
def estimate_rul (anomaly_timestamps : List ℚ)
    (observation_window_days : ℤ := 30) : String ⊕ ℤ :=
  if anomaly_timestamps.isEmpty then
    Sum.inl "🚀 Component operating normally. No critical failure predicted."
  else
    let total_anomalies : ℤ := anomaly_timestamps.length
    let days_covered : ℤ :=
      max 1 (timedelta_days (anomaly_timestamps.getLastD 0)
        (anomaly_timestamps.headD 0))
    let avg_days_between_anomalies : ℚ :=
      (days_covered : ℚ) / (total_anomalies : ℚ)
    Sum.inr (python_int (avg_days_between_anomalies * 2))

/-- An enriched record as handed to sinks: the raw sample plus the optional
`anomaly`, `score`, `probable_cause`, `safety_measures` keys. -/
structure Enriched where
  base : Telemetry
  anomaly : Option Bool
  score : Option ℚ
  probable_cause : Option String
  safety_measures : Option String
deriving DecidableEq, Repr

/-- The enrichment step of `mqtt_publish_loop` (main.py lines 224-243):
`model_loaded` abstracts `if model:`, `pred_outlier` abstracts
`model.predict(features)[0] == -1`, `score` the decision score. -/
def mqtt_enrich (t : Telemetry) (model_loaded pred_outlier : Bool)
    (score : ℚ) : Enriched :=
  if model_loaded then
    { base := t, anomaly := some pred_outlier, score := some score,
      probable_cause :=
        if pred_outlier then some (infer_probable_cause t) else none,
      safety_measures := none }
  else
    { base := t, anomaly := none, score := none,
      probable_cause := none, safety_measures := none }

/-- The enrichment step of `/predict` (main.py lines 341-348); this handler
runs only when a model is loaded. -/
def predict_enrich (t : Telemetry) (pred_outlier : Bool) (score : ℚ) : Enriched :=
  { base := t, anomaly := some pred_outlier, score := some score,
    probable_cause :=
      if pred_outlier then some (infer_probable_cause t) else none,
    safety_measures := none }

/-- The enrichment step of `/safety-recommendation` (main.py lines 384-400):
`probable_cause` and `safety_measures` are written unconditionally, with
`"Normal operation"` substituted when no anomaly was flagged. -/
def safety_enrich (t : Telemetry) (pred_outlier : Bool) (score : ℚ) : Enriched :=
  let cause :=
    if pred_outlier then infer_probable_cause t else "Normal operation"
  let safety :=
    if pred_outlier then infer_safety_measures (infer_probable_cause t)
    else "✅ No safety action required."
  { base := t, anomaly := some pred_outlier, score := some score,
    probable_cause := some cause, safety_measures := some safety }

/-- A generic in-range sample used by concrete instances below. -/
def sampleA : Telemetry :=
  { timestamp := 0, rpm := 3000, throttle := 60, fuel_pressure := 3.4,
    fuel_temp := 33.5, flow_rate := 6.2, note := none }

/-! ## Theorems -/

/-- C1: `infer_probable_cause` is exactly the first-match rule cascade of
§4.4 — it returns the cause of the first rule (in the fixed order 1-7) whose
condition holds and the unknown-cause default when none holds — and whenever
`flow_rate < 2` and `fuel_pressure > 4`, rule 1's injector-clog cause is
returned regardless of the other rules.  The function is a pure function of
the feature vector, so every evaluation of the same input yields the same
cause. -/
theorem infer_probable_cause_first_match :
    (∀ t : Telemetry, infer_probable_cause t = firstMatchCause t) ∧
    (∀ t : Telemetry, t.flow_rate < 2 → t.fuel_pressure > 4 →
      infer_probable_cause t = "Fuel injector clog (low flow rate)") := by
  constructor
  · intro t
    simp only [infer_probable_cause, firstMatchCause, causeRules, firstMatch,
      decide_eq_true_eq]
  · intro t h1 h2
    simp only [infer_probable_cause, if_pos (And.intro h1 h2)]

/-- Witness for C1: rule 1 fires on a sample that also satisfies rules 2 and
5 (`fuel_temp = 60 > 56`, `fuel_pressure = 5 > 4`). -/
theorem infer_probable_cause_first_match_wit :
    infer_probable_cause
      { timestamp := 0, rpm := 3000, throttle := 60, fuel_pressure := 5,
        fuel_temp := 60, flow_rate := 1, note := none } =
      "Fuel injector clog (low flow rate)" :=
  infer_probable_cause_first_match.2
    { timestamp := 0, rpm := 3000, throttle := 60, fuel_pressure := 5,
      fuel_temp := 60, flow_rate := 1, note := none }
    (by norm_num) (by norm_num)

/-- C2: every cause the diagnosis cascade can return falls through the
safety-recommendation table to the fixed generic default (no cascade output
is a key of the table), and `infer_safety_measures` is total: every input
string maps to one of the four table entries or the default, never an
error. -/
theorem infer_safety_measures_default_on_causes :
    (∀ t : Telemetry, infer_safety_measures (infer_probable_cause t) =
      "⚠️ Follow standard emergency procedures. Refer to flight manual.") ∧
    (∀ cause : String, infer_safety_measures cause ∈
      [ "⚠️ Reduce throttle immediately. Prepare for possible engine power loss. Return to base if feasible.",
        "🔥 Monitor engine temperature. Avoid sudden throttle increases. Prepare for emergency landing if required.",
        "🚨 Monitor fuel usage carefully. Avoid aggressive maneuvers. Notify control and prepare for early landing.",
        "✅ No safety action required. System operating within safe parameters.",
        "⚠️ Follow standard emergency procedures. Refer to flight manual." ]) := by
  constructor
  · intro t
    unfold infer_probable_cause
    split_ifs <;> decide
  · intro cause
    unfold infer_safety_measures
    split_ifs <;> simp

/-- C3 counterexample: a simulated sample (rpm drawn as 1500, all uniform
draws at concrete values, no anomaly excursion) put through the supported
fault type `"throttle_spike"` violates `throttle == round((rpm - 1500)/25, 2)`:
the fault forces `throttle = 100` while leaving `rpm = 1500`, whose derived
throttle is 0. -/
theorem throttle_invariant_cex :
    ¬ ((inject_fault (simulate_fuel_system 1500 0 0 1 false 0 0 0 0)
          "throttle_spike" 0).throttle =
        round2 (((inject_fault (simulate_fuel_system 1500 0 0 1 false 0 0 0 0)
          "throttle_spike" 0).rpm - 1500) / 25)) := by
  simp [simulate_fuel_system, inject_fault, round2]

/-- C3 amended: the invariant `throttle == round((rpm - 1500)/25, 2)` holds
for every sample produced by `simulate_fuel_system`, and it is preserved by
`inject_fault` for every fault type except `"throttle_spike"` (which sets
`throttle = 100` without touching `rpm`); for `"rpm_surge"` the throttle is
recomputed from the new rpm. -/
theorem throttle_invariant_amended :
    (∀ (rpm0 : ℤ) (u_pressure u_temp anomaly_roll : ℚ) (band_low : Bool)
        (u_low u_high u_flow now : ℚ),
      (simulate_fuel_system rpm0 u_pressure u_temp anomaly_roll band_low
          u_low u_high u_flow now).throttle =
        round2 (((simulate_fuel_system rpm0 u_pressure u_temp anomaly_roll
          band_low u_low u_high u_flow now).rpm - 1500) / 25)) ∧
    (∀ (t : Telemetry) (fault_type : String) (u_spike : ℚ),
      t.throttle = round2 ((t.rpm - 1500) / 25) →
      fault_type ≠ "throttle_spike" →
      (inject_fault t fault_type u_spike).throttle =
        round2 (((inject_fault t fault_type u_spike).rpm - 1500) / 25)) := by
  constructor
  · intro rpm0 u_pressure u_temp anomaly_roll band_low u_low u_high u_flow now
    rfl
  · intro t fault_type u_spike h hne
    unfold inject_fault
    split_ifs with h1 h2 h3 h4
    · exact h
    · exact h
    · exact h
    · rfl
    · exact h

/-- Witness for C3 amended: the invariant survives a `"fuel_leak"` injection
on a concrete in-range sample. -/
theorem throttle_invariant_amended_wit :
    (inject_fault sampleA "fuel_leak" 0).throttle =
      round2 (((inject_fault sampleA "fuel_leak" 0).rpm - 1500) / 25) :=
  throttle_invariant_amended.2 sampleA "fuel_leak" 0
    (by norm_num [sampleA, round2]) (by decide)

/-- `int()` on a nonnegative value truncates toward zero, which is floor. -/
lemma python_int_eq_floor (x : ℚ) (h : 0 ≤ x) : python_int x = ⌊x⌋ :=
  if_pos h

/-- On a non-empty history, `estimate_rul` follows the
`days_covered / total * 2` formula of the source. -/
lemma estimate_rul_eq (ts : List ℚ) (hne : ts ≠ []) :
    estimate_rul ts = Sum.inr (python_int
      ((((max 1 (timedelta_days (ts.getLastD 0) (ts.headD 0))) : ℤ) : ℚ) /
        ((ts.length : ℤ) : ℚ) * 2)) := by
  unfold estimate_rul
  rw [if_neg (by simpa [List.isEmpty_iff] using hne)]

/-- The truncation in `estimate_rul` is a floor, because the average gap is
nonnegative (`days_covered ≥ 1`). -/
lemma estimate_rul_floor (ts : List ℚ) (hne : ts ≠ []) :
    estimate_rul ts = Sum.inr
      ⌊(((max 1 (timedelta_days (ts.getLastD 0) (ts.headD 0))) : ℤ) : ℚ) /
        ((ts.length : ℤ) : ℚ) * 2⌋ := by
  rw [estimate_rul_eq ts hne, python_int_eq_floor]
  have h1 : (0 : ℚ) ≤
      (((max 1 (timedelta_days (ts.getLastD 0) (ts.headD 0))) : ℤ) : ℚ) := by
    exact_mod_cast le_trans zero_le_one (le_max_left 1 _)
  have h2 : (0 : ℚ) ≤ ((ts.length : ℤ) : ℚ) := by positivity
  exact mul_nonneg (div_nonneg h1 h2) (by norm_num)

/-- C4: `estimate_rul` returns the no-failure sentinel exactly on the empty
timestamp sequence; on a non-empty sequence it returns
`floor(avgGap * 2)` with `daysCovered = max 1 (whole days first..last)` and
`avgGap = daysCovered / count`; a single-timestamp history yields RUL 2. -/
theorem estimate_rul_spec :
    (∀ ts : List ℚ, (estimate_rul ts =
        Sum.inl "🚀 Component operating normally. No critical failure predicted." ↔
        ts = [])) ∧
    (∀ ts : List ℚ, ts ≠ [] →
      estimate_rul ts = Sum.inr
        ⌊(((max 1 (timedelta_days (ts.getLastD 0) (ts.headD 0))) : ℤ) : ℚ) /
          ((ts.length : ℤ) : ℚ) * 2⌋) ∧
    (∀ t : ℚ, estimate_rul [t] = Sum.inr 2) := by
  refine ⟨?_, estimate_rul_floor, ?_⟩
  · intro ts
    constructor
    · intro h
      by_contra hne
      rw [estimate_rul_floor ts hne] at h
      exact Sum.noConfusion h
    · intro h
      subst h
      rfl
  · intro t
    rw [estimate_rul_floor [t] (by simp)]
    norm_num [timedelta_days]

/-- Witness for C4: the non-empty formula instantiated on a concrete
single-element history. -/
theorem estimate_rul_spec_wit :
    estimate_rul [(0 : ℚ)] = Sum.inr
      ⌊(((max 1 (timedelta_days ([(0 : ℚ)].getLastD 0) ([(0 : ℚ)].headD 0))) : ℤ) : ℚ) /
        (([(0 : ℚ)].length : ℤ) : ℚ) * 2⌋ :=
  estimate_rul_spec.2.1 [(0 : ℚ)] (by simp)

/-- C5 counterexample: two timestamps exactly 10 days (864000 s) apart give
`days_covered = 10`, `avgGap = 10 / 2 = 5`, so `estimate_rul` returns 10, not
the claimed 20. -/
theorem estimate_rul_ten_days_cex :
    timedelta_days 864000 0 = 10 ∧
    estimate_rul [(0 : ℚ), 864000] ≠ Sum.inr 20 ∧
    estimate_rul [(0 : ℚ), 864000] = Sum.inr 10 := by
  have h : estimate_rul [(0 : ℚ), 864000] = Sum.inr 10 := by
    rw [estimate_rul_floor [(0 : ℚ), 864000] (by simp)]
    norm_num [timedelta_days]
  refine ⟨by norm_num [timedelta_days], by rw [h]; decide, h⟩

/-- C5 amended: for two timestamps lying 10 whole days apart the average gap
is `10 / 2 = 5` days and `estimate_rul` returns 10 days. -/
theorem estimate_rul_ten_days_amended :
    ∀ a b : ℚ, timedelta_days b a = 10 →
      estimate_rul [a, b] = Sum.inr 10 := by
  intro a b h
  rw [estimate_rul_floor [a, b] (by simp)]
  have hl : [a, b].getLastD 0 = b := rfl
  have hh : [a, b].headD 0 = a := rfl
  rw [hl, hh, h]
  norm_num

/-- Witness for C5 amended: instants 0 s and 864000 s. -/
theorem estimate_rul_ten_days_amended_wit :
    estimate_rul [(0 : ℚ), 864000] = Sum.inr 10 :=
  estimate_rul_ten_days_amended 0 864000 (by norm_num [timedelta_days])

/-- C10: the RUL estimate has no positive lower bound — any history of at
least 3 anomalies whose first and last instants are less than one whole day
apart has `days_covered = 1`, `avgGap * 2 = 2 / n < 1`, so `estimate_rul`
returns 0 days. -/
theorem estimate_rul_subday_burst_zero :
    ∀ ts : List ℚ, 3 ≤ ts.length →
      0 ≤ ts.getLastD 0 - ts.headD 0 →
      ts.getLastD 0 - ts.headD 0 < 86400 →
      estimate_rul ts = Sum.inr 0 := by
  intro ts h3 hge hlt
  have hne : ts ≠ [] := by
    intro h
    subst h
    simp at h3
  have hdays : timedelta_days (ts.getLastD 0) (ts.headD 0) = 0 := by
    unfold timedelta_days
    rw [Int.floor_eq_zero_iff, Set.mem_Ico]
    constructor
    · positivity
    · rw [div_lt_one (by norm_num)]
      linarith
  rw [estimate_rul_floor ts hne, hdays]
  have hn : (3 : ℚ) ≤ ((ts.length : ℤ) : ℚ) := by exact_mod_cast h3
  have hn0 : (0 : ℚ) < ((ts.length : ℤ) : ℚ) := by linarith
  have hmax : max 1 (0 : ℤ) = 1 := by decide
  rw [hmax]
  congr 1
  rw [Int.floor_eq_zero_iff, Set.mem_Ico]
  constructor
  · positivity
  · have he : ((1 : ℤ) : ℚ) / ((ts.length : ℤ) : ℚ) * 2 =
        2 / ((ts.length : ℤ) : ℚ) := by
      push_cast
      ring
    rw [he, div_lt_one hn0]
    linarith

/-- Witness for C10: three anomalies within 2 seconds yield RUL 0. -/
theorem estimate_rul_subday_burst_zero_wit :
    estimate_rul [(0 : ℚ), 1, 2] = Sum.inr 0 :=
  estimate_rul_subday_burst_zero [0, 1, 2] (by decide) (by norm_num)
    (by norm_num)

/-- Writing a cell of the store and reading it back yields the written
value. -/
lemma getD_set_self {α : Type} (l : List α) (i : Nat) (a d : α)
    (h : i < l.length) : (l.set i a).getD i d = a := by
  rw [List.getD_eq_getElem?_getD, List.getElem?_set_eq_of_lt a h]
  rfl

/-- C6 counterexample: calling `inject_fault` with `"injector_clog"` on a
one-cell store changes the very object the caller passed in (its
`flow_rate` becomes 30% of the old value) and returns the same reference,
so the input is neither left unchanged nor is the result a distinct
record. -/
theorem inject_fault_no_alias_cex :
    (inject_fault_call [sampleA] 0 "injector_clog" 0).1.getD 0 default ≠
      sampleA ∧
    (inject_fault_call [sampleA] 0 "injector_clog" 0).2 = 0 := by
  refine ⟨fun h => ?_, rfl⟩
  have hf := congrArg Telemetry.flow_rate h
  simp [inject_fault_call, inject_fault, sampleA] at hf
  norm_num at hf

/-- C6 amended: `inject_fault` mutates its input in place and returns the
same object — after the call the caller's reference points at the
fault-transformed sample, and the returned reference is the input
reference. -/
theorem inject_fault_in_place_amended :
    ∀ (store : List Telemetry) (r : Nat) (fault_type : String) (u_spike : ℚ),
      r < store.length →
      (inject_fault_call store r fault_type u_spike).2 = r ∧
      (inject_fault_call store r fault_type u_spike).1.getD r default =
        inject_fault (store.getD r default) fault_type u_spike := by
  intro store r fault_type u_spike h
  exact ⟨rfl, getD_set_self _ _ _ _ h⟩

/-- Witness for C6 amended: a `"fuel_leak"` call on a one-cell store. -/
theorem inject_fault_in_place_amended_wit :
    (inject_fault_call [sampleA] 0 "fuel_leak" 0).2 = 0 ∧
    (inject_fault_call [sampleA] 0 "fuel_leak" 0).1.getD 0 default =
      inject_fault ([sampleA].getD 0 default) "fuel_leak" 0 :=
  inject_fault_in_place_amended [sampleA] 0 "fuel_leak" 0 (by decide)

/-- C7 counterexample: `"throttle_spike"` draws `random.uniform(0, 2)` for
the new `flow_rate`, so two invocations on the same sample with the same
fault type but different draws (0 and 1, both in range) give different
outputs — `inject_fault` is not deterministic given `faultType`. -/
theorem inject_fault_deterministic_cex :
    (0 : ℚ) ≤ 0 ∧ (0 : ℚ) ≤ 2 ∧ (0 : ℚ) ≤ 1 ∧ (1 : ℚ) ≤ 2 ∧
    inject_fault sampleA "throttle_spike" 0 ≠
      inject_fault sampleA "throttle_spike" 1 := by
  refine ⟨by norm_num, by norm_num, by norm_num, by norm_num, fun h => ?_⟩
  have hf := congrArg Telemetry.flow_rate h
  simp [inject_fault, round2] at hf
  norm_num at hf

/-- C7 amended: `inject_fault` is deterministic given `faultType` for every
fault type except `"throttle_spike"` — the output does not depend on the
random draw. -/
theorem inject_fault_deterministic_amended :
    ∀ (t : Telemetry) (fault_type : String) (u₁ u₂ : ℚ),
      fault_type ≠ "throttle_spike" →
      inject_fault t fault_type u₁ = inject_fault t fault_type u₂ := by
  intro t fault_type u₁ u₂ hne
  unfold inject_fault
  split_ifs <;> rfl

/-- Witness for C7 amended: `"rpm_surge"` with draws 0 and 5. -/
theorem inject_fault_deterministic_amended_wit :
    inject_fault sampleA "rpm_surge" 0 = inject_fault sampleA "rpm_surge" 5 :=
  inject_fault_deterministic_amended sampleA "rpm_surge" 0 5 (by decide)

/-- C8: on any fault type outside the five supported names, `inject_fault`
never fails — all numeric fields (and the timestamp) are identical to the
input and only the diagnostic `note` is added. -/
theorem inject_fault_unknown_noop :
    ∀ (t : Telemetry) (fault_type : String) (u_spike : ℚ),
      fault_type ≠ "injector_clog" → fault_type ≠ "sensor_failure" →
      fault_type ≠ "fuel_leak" → fault_type ≠ "rpm_surge" →
      fault_type ≠ "throttle_spike" →
      (inject_fault t fault_type u_spike).rpm = t.rpm ∧
      (inject_fault t fault_type u_spike).throttle = t.throttle ∧
      (inject_fault t fault_type u_spike).fuel_pressure = t.fuel_pressure ∧
      (inject_fault t fault_type u_spike).fuel_temp = t.fuel_temp ∧
      (inject_fault t fault_type u_spike).flow_rate = t.flow_rate ∧
      (inject_fault t fault_type u_spike).timestamp = t.timestamp ∧
      (inject_fault t fault_type u_spike).note =
        some " Unknown fault type  no effect" := by
  intro t fault_type u_spike h1 h2 h3 h4 h5
  unfold inject_fault
  rw [if_neg h1, if_neg h2, if_neg h3, if_neg h4, if_neg h5]
  exact ⟨rfl, rfl, rfl, rfl, rfl, rfl, rfl⟩

/-- Witness for C8: the unrecognized fault name `"bogus"`. -/
theorem inject_fault_unknown_noop_wit :
    (inject_fault sampleA "bogus" 0).rpm = sampleA.rpm ∧
    (inject_fault sampleA "bogus" 0).throttle = sampleA.throttle ∧
    (inject_fault sampleA "bogus" 0).fuel_pressure = sampleA.fuel_pressure ∧
    (inject_fault sampleA "bogus" 0).fuel_temp = sampleA.fuel_temp ∧
    (inject_fault sampleA "bogus" 0).flow_rate = sampleA.flow_rate ∧
    (inject_fault sampleA "bogus" 0).timestamp = sampleA.timestamp ∧
    (inject_fault sampleA "bogus" 0).note =
      some " Unknown fault type  no effect" :=
  inject_fault_unknown_noop sampleA "bogus" 0 (by decide) (by decide)
    (by decide) (by decide) (by decide)

/-- C9 counterexample: on the `/safety-recommendation` path a non-anomalous
sample still gets a `probable_cause` field — it is set to
`"Normal operation"` while `anomaly` is `false`. -/
theorem probable_cause_only_if_anomaly_cex :
    (safety_enrich sampleA false 0).probable_cause = some "Normal operation" ∧
    (safety_enrich sampleA false 0).anomaly = some false := by
  constructor <;> rfl

/-- C9 amended: on the streaming-loop and `/predict` paths `probable_cause`
is present only when `anomaly` is true; on the `/safety-recommendation` path
it is always present, holding the inferred cause when anomalous and
`"Normal operation"` otherwise. -/
theorem probable_cause_only_if_anomaly_amended :
    (∀ (t : Telemetry) (model_loaded pred_outlier : Bool) (score : ℚ),
      ((mqtt_enrich t model_loaded pred_outlier score).probable_cause).isSome =
        true →
      (mqtt_enrich t model_loaded pred_outlier score).anomaly = some true) ∧
    (∀ (t : Telemetry) (pred_outlier : Bool) (score : ℚ),
      ((predict_enrich t pred_outlier score).probable_cause).isSome = true →
      (predict_enrich t pred_outlier score).anomaly = some true) ∧
    (∀ (t : Telemetry) (pred_outlier : Bool) (score : ℚ),
      (safety_enrich t pred_outlier score).probable_cause =
        some (if pred_outlier then infer_probable_cause t
          else "Normal operation")) := by
  refine ⟨?_, ?_, ?_⟩
  · intro t model_loaded pred_outlier score h
    cases model_loaded <;> cases pred_outlier <;> simp_all [mqtt_enrich]
  · intro t pred_outlier score h
    cases pred_outlier <;> simp_all [predict_enrich]
  · intro t pred_outlier score
    cases pred_outlier <;> rfl

/-- Witness for C9 amended: an anomalous sample on the streaming loop with a
loaded model. -/
theorem probable_cause_only_if_anomaly_amended_wit :
    (mqtt_enrich sampleA true true 0).anomaly = some true :=
  probable_cause_only_if_anomaly_amended.1 sampleA true true 0 (by decide)
